import Mathlib

/-!
Verification development for the alert-generation pipeline of the
Genuine-Bazaar repository (Python sources under `app/`).

The Python services are shallowly embedded as executable Lean functions:

* machine floats become `ℚ` (every number the pipeline manipulates is a
  small decimal; none of the claims concerns float rounding),
* Python `int(x)` truncation toward zero becomes `pytrunc`,
* network calls become explicit oracle values (`GdeltNet`, `NewsNet`,
  `WeatherNet`) enumerating the outcomes the Python code distinguishes
  (timeout, raising request error such as a non-2xx status, unparseable
  body, parsed payload); every exception path of the source is an explicit
  constructor so that the embedded functions are total exactly where the
  Python functions never raise,
* JSON dictionaries become structures whose `Option` fields record the
  missing-key / `None` cases the source code tests,
* the SQLAlchemy alert table becomes a list of rows; auto-flush makes
  alerts staged by `db.add` visible to the later duplicate queries of the
  same run, which the embedding reproduces by appending staged rows,
* purely cosmetic alert fields (`title`, `message`, `created_at`) that no
  claim mentions are omitted from the embedded records.
-/

/-- Python `int(x)`: truncation toward zero. -/
def pytrunc (q : ℚ) : ℤ := if 0 ≤ q then ⌊q⌋ else ⌈q⌉

/-- `max 0 (min 100 z)`: the clamp the scorer applies (`max(0, min(100, .))`). -/
def clamp100 (z : ℤ) : ℤ := max 0 (min 100 z)

/-- Decides whether `needle` starts `hay` (helper for Python's `in` on strings). -/
def isPrefOf : List Char → List Char → Bool
  | [], _ => true
  | _ :: _, [] => false
  | a :: as, b :: bs => a == b && isPrefOf as bs

/-- Python `needle in hay` for strings, over the character lists. -/
def subOf (needle : List Char) : List Char → Bool
  | [] => needle.isEmpty
  | c :: t => isPrefOf needle (c :: t) || subOf needle t

/-- Python `s.lower()` over the character list (the repository only compares
ASCII keywords). -/
def lowerData (s : String) : List Char := s.data.map Char.toLower

/-! ## `app/services/ml_service.py` — opportunity scorer -/

/-- The value a Python `dict.get(key, default)` can see for one numeric
feature: the key is absent, the key holds `None`, or the key holds a
number. -/
inductive PyNum where
  | absent
  | null
  | num (q : ℚ)
deriving DecidableEq

/-- `features.get(key, d)` followed by the source's `is not None` test:
`none` means the branch guarded by `is not None` is skipped. -/
def PyNum.getD : PyNum → ℚ → Option ℚ
  | .absent, d => some d
  | .null, _ => none
  | .num q, _ => some q

/-- The feature dictionary `MLService` consumes. `is_holiday` is read with
`features.get("is_holiday", False)` and only tested for truthiness, so it
is embedded as a `Bool`. -/
structure Features where
  search_trend_score : PyNum
  temperature : PyNum
  rain_probability : PyNum
  is_holiday : Bool
deriving DecidableEq

/-- `MLService._fallback_score`: rule-based scoring used when no trained
model is loaded (and when inference raises). -/
def fallback_score (features : Features) : ℤ :=
  let score0 : ℚ := 50
  let score1 : ℚ :=
    match features.search_trend_score.getD 50 with
    | none => score0
    | some trend_score => score0 + (trend_score - 50) * (2 / 5)
  let score2 : ℚ := if features.is_holiday then score1 + 20 else score1
  let score3 : ℚ :=
    match features.temperature.getD 25 with
    | none => score2
    | some temp =>
        if 20 ≤ temp ∧ temp ≤ 30 then score2 + 10
        else if 30 < temp ∨ temp < 10 then score2 + 15
        else score2
  let score4 : ℚ :=
    match features.rain_probability.getD 0 with
    | none => score3
    | some rain_prob => score3 - rain_prob * 10
  clamp100 (pytrunc score4)

/-- Outcome of `self.model.predict(feature_vector)[0]` when a trained model
is loaded: the raw regression output, or an inference exception. -/
inductive ModelOutcome where
  | ok (raw : ℚ)
  | err
deriving DecidableEq

/-- `MLService.predict_opportunity`, restricted to the opportunity score it
returns (the features echo and the explanation string carry no claim).
`model = none` is the unloaded-model state; `some .err` is a model whose
inference raises, which the handler routes to the fallback scorer. -/
def predict_opportunity (model : Option ModelOutcome) (features : Features) : ℤ :=
  match model with
  | some (.ok raw) => clamp100 (pytrunc raw)
  | some .err => fallback_score features
  | none => fallback_score features

/-- Modelled from the spec's fallback formula (§4.4 / claim C2 wording):
start at 50, add `(trend_score−50)×0.4`, add 20 on a holiday, add 10 for a
temperature within [20,30] else 15 outside [10,30], subtract
`rain_probability×10`, clamp to [0,100].  Stated over ℚ; compared against
the source's `fallback_score` in claim C2. -/
def spec_fallback_formula (features : Features) : ℚ :=
  let withTrend : ℚ := 50 +
    (match features.search_trend_score.getD 50 with
     | none => 0
     | some t => (t - 50) * (4 / 10))
  let withHoliday : ℚ := withTrend + (if features.is_holiday then 20 else 0)
  let withTemp : ℚ := withHoliday +
    (match features.temperature.getD 25 with
     | none => 0
     | some t => if 20 ≤ t ∧ t ≤ 30 then 10 else if t < 10 ∨ 30 < t then 15 else 0)
  let withRain : ℚ := withTemp -
    (match features.rain_probability.getD 0 with
     | none => 0
     | some r => r * 10)
  max 0 (min 100 withRain)

/-! ## `app/services/gdelt_service.py` — trend score extractor -/

/-- One entry of a timeline item's `"data"` list: `none` when the entry is
not a dict (skipped by the `isinstance` test); `some v` when it is a dict
whose `d.get("value", 0)` yields `v` (a dict without a `"value"` key is
`some 0`). -/
abbrev GPoint := Option ℚ

/-- One entry of the `"timeline"` list: `none` when the entry is not a dict
with a `"data"` list; `some dl` carries that list. -/
abbrev GItem := Option (List GPoint)

/-- The parsed GDELT JSON response as far as the service walks it:
`timeline = none` when the `"timeline"` key is missing or not a list. -/
structure GdeltData where
  timeline : Option (List GItem)
deriving DecidableEq

/-- `[d.get("value", 0) for d in data_list if isinstance(d, dict) and
d.get("value", 0) > 0]`. -/
def gPositives (dl : List GPoint) : List ℚ :=
  dl.filterMap fun p =>
    match p with
    | some v => if 0 < v then some v else none
    | none => none

/-- Python `sum(values)`. -/
def sumQ (l : List ℚ) : ℚ := l.foldl (· + ·) 0

/-- Python `max(values)` (only applied to non-empty lists by the source). -/
def listMax : List ℚ → ℚ
  | [] => 0
  | x :: xs => xs.foldl max x

/-- Python `values[-n:]`. -/
def lastN (n : ℕ) (l : List ℚ) : List ℚ := l.drop (l.length - n)

/-- `GDELTService._validate_trend_data`: the genuine-trend gate.  Only the
first timeline item is inspected.  The thresholds are the source's
`0.05`, `0.01` and `0.9`. -/
def validate_trend_data (d : GdeltData) : Bool :=
  match d.timeline with
  | none => false
  | some [] => false
  | some (item0 :: _) =>
    match item0 with
    | none => false
    | some dl =>
      if dl.length < 7 then false
      else
        let values := gPositives dl
        if values.length < 7 then false
        else
          let max_val := listMax values
          let avg_val := sumQ values / (values.length : ℚ)
          let recent_vals := lastN 7 values
          let recent_avg := sumQ recent_vals / (recent_vals.length : ℚ)
          let recent_val := values.getLastD 0
          decide ((1 : ℚ) / 20 < max_val) &&
            decide ((1 : ℚ) / 100 < recent_val) &&
            decide (avg_val * (9 / 10) ≤ recent_avg)

/-- The score `GDELTService.get_trend_score` derives from the positive
values of one timeline item; `none` makes the item loop continue with the
next item (`if values:` failing, or the item shape not matching). -/
def score_from_values (values : List ℚ) : Option ℤ :=
  if values.isEmpty then none
  else
    let recent_val := values.getLastD 0
    let recent_avg := sumQ (lastN 7 values) / ((min 7 values.length : ℕ) : ℚ)
    let overall_avg := sumQ values / (values.length : ℚ)
    if 0 < recent_val then
      let base_score : ℤ :=
        if recent_val < 10 then pytrunc (recent_val * 100) else pytrunc recent_val
      some
        (if overall_avg * (11 / 10) < recent_avg then min 100 (max 20 (base_score + 20))
         else if overall_avg < recent_avg then min 100 (max 15 (base_score + 10))
         else min 100 (max 10 base_score))
    else none

/-- The `for item in timeline` loop of `get_trend_score`: the first item
that yields a score breaks the loop. -/
def extract_score : List GItem → Option ℤ
  | [] => none
  | item :: rest =>
    match item with
    | some dl =>
        if 0 < dl.length then
          match score_from_values (gPositives dl) with
          | some s => some s
          | none => extract_score rest
        else extract_score rest
    | none => extract_score rest

/-- `GDELTService.get_trend_score` applied to an already-fetched response
(`data = none` is `fetch_gdelt_trends` returning `None`; a falsy empty
dict is the `timeline = none` case, rejected by validation as well). -/
def get_trend_score_from (data : Option GdeltData) : Option ℤ :=
  match data with
  | none => none
  | some d =>
    if validate_trend_data d then
      match (match d.timeline with
             | none => none
             | some items => extract_score items) with
      | some s => if 10 ≤ s then some s else none
      | none => none
    else none

/-- Outcome of the one `requests.get` call GDELT fetching makes:
`requestError` covers a raising non-2xx status (`raise_for_status`) and any
other `RequestException`; `badJson` a 2xx body `resp.json()` rejects. -/
inductive GdeltNet where
  | timeout
  | requestError
  | badJson
  | ok (data : GdeltData)
deriving DecidableEq

/-- `GDELTService.fetch_gdelt_trends`.  The second component records
whether the network call was performed (the short-keyword rejection
returns before any call).  The `country` argument of the source is unused
by the request it builds and is dropped. -/
def fetch_gdelt_trends (keyword : String) (net : GdeltNet) : Option GdeltData × Bool :=
  if keyword.length < 3 then (none, false)
  else
    match net with
    | .timeout => (none, true)
    | .requestError => (none, true)
    | .badJson => (none, true)
    | .ok d => (some d, true)

/-- `GDELTService.get_trend_score` end to end: fetch, then extract. -/
def get_trend_score (keyword : String) (net : GdeltNet) : Option ℤ :=
  get_trend_score_from (fetch_gdelt_trends keyword net).1

/-- One element of the list `get_trends_for_keywords` builds. -/
structure TrendEntry where
  keyword : String
  trend_score : ℤ
  status : String
  source : String
deriving DecidableEq

/-- The loop body of `get_trends_for_keywords` for one keyword: the entry
appended when the score is not `None` and at least 10, else nothing. -/
def trend_entry_for (net : String → GdeltNet) (keyword : String) : Option TrendEntry :=
  match get_trend_score keyword (net keyword) with
  | some score =>
      if 10 ≤ score then
        some { keyword := keyword, trend_score := score,
               status := if 50 < score then "trending" else "rising",
               source := "gdelt" }
      else none
  | none => none

/-- `GDELTService.get_trends_for_keywords`: per-keyword scores, `None`
results skipped, then `trends.sort(key=trend_score, reverse=True)`
(Python's stable descending sort, embedded as a stable merge sort with the
matching comparator).  `net` supplies each keyword's fetch outcome. -/
def get_trends_for_keywords (keywords : List String) (net : String → GdeltNet) :
    List TrendEntry :=
  let trends := keywords.filterMap (trend_entry_for net)
  trends.mergeSort fun a b => decide (b.trend_score ≤ a.trend_score)

/-! ## `app/services/newsapi_service.py` — news-volume adapter -/

/-- Outcome of the NewsAPI `requests.get`: a timeout/connection error, or a
response with its status code and parsed `totalResults` (`none` when the
body is not JSON, which makes `resp.json()` raise into the broad handler). -/
inductive NewsNet where
  | timeout
  | status (code : ℕ) (totalResults : Option ℕ)
deriving DecidableEq

/-- `NewsAPIService._calculate_score`: tiered article-count scoring. -/
def calculate_score (article_count : ℕ) (days : ℕ) : ℤ :=
  let articles_per_day : ℚ := (article_count : ℚ) / (days : ℚ)
  if 50 ≤ articles_per_day then
    min 100 (80 + pytrunc ((articles_per_day - 50) / 2))
  else if 20 ≤ articles_per_day then
    min 80 (50 + pytrunc ((articles_per_day - 20) * 1))
  else if 10 ≤ articles_per_day then
    min 50 (30 + pytrunc ((articles_per_day - 10) * 2))
  else if 5 ≤ articles_per_day then
    min 30 (15 + pytrunc ((articles_per_day - 5) * 3))
  else if 1 ≤ articles_per_day then
    min 15 (5 + pytrunc (articles_per_day * 2))
  else
    max 0 (pytrunc (articles_per_day * 5))

/-- The dictionary `search_trend` returns. -/
structure NewsResult where
  keyword : String
  score : ℤ
  articles : ℕ
  status : String
  source : String
deriving DecidableEq

/-- The `high_trend_keywords` table of `_get_fallback_score`. -/
def high_trend_keywords : List (String × ℤ) :=
  [("iphone", 85), ("samsung", 80), ("apple", 90), ("google", 85),
   ("crypto", 75), ("bitcoin", 80), ("ai", 90), ("chatgpt", 85),
   ("tesla", 80), ("amazon", 85), ("netflix", 75), ("meta", 70)]

/-- The `medium_trend_keywords` table of `_get_fallback_score`. -/
def medium_trend_keywords : List (String × ℤ) :=
  [("laptop", 60), ("smartphone", 65), ("headphones", 55),
   ("cake", 50), ("pizza", 55), ("coffee", 70), ("restaurant", 60),
   ("fashion", 65), ("clothes", 60), ("shoes", 65), ("makeup", 55)]

/-- `NewsAPIService._get_fallback_score`: the estimated signal emitted when
the provider cannot be used. -/
def get_fallback_score (keyword : String) : NewsResult :=
  let keyword_lower : String := ⟨lowerData keyword⟩
  let score : ℤ :=
    match high_trend_keywords.lookup keyword_lower with
    | some s => s
    | none =>
      match medium_trend_keywords.lookup keyword_lower with
      | some s => s
      | none => 30
  { keyword := keyword, score := score, articles := 0,
    status := if 50 < score then "trending" else if 20 < score then "rising" else "low",
    source := "estimated" }

/-- `NewsAPIService.search_trend`.  `api_key = none` is the unconfigured
credential; `raise_for_status` raises exactly for 4xx/5xx codes, landing in
the `RequestException` handler. -/
def search_trend (api_key : Option String) (keyword : String) (days : ℕ)
    (net : NewsNet) : Option NewsResult :=
  match api_key with
  | none => some (get_fallback_score keyword)
  | some _ =>
    match net with
    | .timeout => some (get_fallback_score keyword)
    | .status code totalResults =>
      if code = 401 then some (get_fallback_score keyword)
      else if code = 429 then some (get_fallback_score keyword)
      else if 400 ≤ code ∧ code < 600 then some (get_fallback_score keyword)
      else
        match totalResults with
        | none => some (get_fallback_score keyword)
        | some total_articles =>
          if total_articles = 0 then
            some { keyword := keyword, score := 0, articles := 0,
                   status := "none", source := "newsapi" }
          else
            let score := calculate_score total_articles days
            some { keyword := keyword, score := score, articles := total_articles,
                   status := if 50 < score then "trending"
                             else if 20 < score then "rising" else "low",
                   source := "newsapi" }

/-! ## `app/services/weather_service.py` — weather adapter

Python defines `get_forecast` twice in the class body; the second
definition (hourly breakdown, `hours_ahead` parameter) replaces the first,
so only that one is embedded: it is the one `DemandDetector` calls. -/

/-- One element of the provider's `"list"`: `dt` epoch seconds, `main.temp`,
the optional `"rain"` object's `3h` amount (`rain.get("3h", 0)` makes a
rain object without the key `some 0`), and `weather[0].id` when the
`"weather"` list is present and non-empty. -/
structure WForecastEntry where
  dt : ℤ
  temp : ℚ
  rain3h : Option ℚ
  weather_id : Option ℕ
deriving DecidableEq

/-- The parsed forecast body. -/
structure WBody where
  list : List WForecastEntry
deriving DecidableEq

/-- Outcome of the weather `requests.get`; all raising paths land in the
single broad handler of the source. -/
inductive WeatherNet where
  | timeout
  | requestError
  | badJson
  | ok (body : WBody)
deriving DecidableEq

/-- One processed hourly entry of the forecast the service returns (the ISO
`timestamp` echo of `dt`, used by no caller and no claim, is omitted). -/
structure HourForecast where
  hours_ahead : ℤ
  temperature : ℚ
  rain_probability : ℚ
deriving DecidableEq

/-- The `for forecast in data["list"]` loop of the hourly `get_forecast`:
stops at the first entry beyond `hours_ahead` (float hour difference,
truncated with `int(...)` for the output). -/
def build_forecast_list (now hours_ahead : ℤ) : List WForecastEntry → List HourForecast
  | [] => []
  | f :: fs =>
    let hours_diff : ℚ := ((f.dt - now : ℤ) : ℚ) / 3600
    if (hours_ahead : ℚ) < hours_diff then []
    else
      let rain_prob : ℚ :=
        match f.rain3h with
        | some v => min (v / 3) 1
        | none =>
          match f.weather_id with
          | some wid => if 200 ≤ wid ∧ wid < 600 then 1 / 2 else 0
          | none => 0
      { hours_ahead := pytrunc hours_diff, temperature := f.temp,
        rain_probability := rain_prob } :: build_forecast_list now hours_ahead fs

/-- The dictionary the hourly `get_forecast` returns. -/
structure WeatherData where
  city : String
  forecast : List HourForecast
deriving DecidableEq

/-- `WeatherService.get_forecast` (hourly breakdown): missing API key and
every request failure give `None`; an empty `"list"` gives `None`;
otherwise the processed hourly list.  `now` is `datetime.now()` in epoch
seconds. -/
def get_forecast (api_key : Option String) (city : String) (now hours_ahead : ℤ)
    (net : WeatherNet) : Option WeatherData :=
  match api_key with
  | none => none
  | some _ =>
    match net with
    | .timeout => none
    | .requestError => none
    | .badJson => none
    | .ok body =>
      if body.list.length = 0 then none
      else some { city := city, forecast := build_forecast_list now hours_ahead body.list }

/-! ## `app/services/demand_detector.py` — weather rule evaluators -/

/-- The rain lexicon of both weather checks. -/
def rain_keywords : List String :=
  ["umbrella", "raincoat", "rain", "waterproof", "boots"]

/-- The hot-weather lexicon of both weather checks. -/
def hot_keywords : List String :=
  ["cold drink", "ice cream", "fan", "ac", "cooler", "summer"]

/-- `any(rk in kw for kw in tracked_keywords for rk in rain_keywords)` with
`tracked_keywords` the lowered active keywords. -/
def has_rain_keyword (tracked : List String) : Bool :=
  tracked.any fun kw => rain_keywords.any fun rk => subOf rk.data (lowerData kw)

/-- Same membership test against the hot lexicon. -/
def has_hot_keyword (tracked : List String) : Bool :=
  tracked.any fun kw => hot_keywords.any fun hk => subOf hk.data (lowerData kw)

/-- The `context_data` payload of a weather candidate: the keys the two
weather checks write (fields absent from a given payload are `none`). -/
structure WCtx where
  weather_type : String
  hours_ahead : Option ℤ
  temperature : Option ℚ
  rain_probability : Option ℚ
  city : String
  suggestion : Option String
deriving DecidableEq

/-- A weather alert candidate as the detector dictionaries carry it (the
human-readable `title` and `message` strings, which no claim mentions, are
omitted). -/
structure WCand where
  user_id : ℤ
  alert_type : String
  priority : String
  keyword : Option String
  context_data : WCtx
  predicted_impact : ℚ
  confidence_score : ℚ
deriving DecidableEq

/-- The rain half of `_check_automatic_weather_alerts`: the loop over the
first 6 forecast entries `break`s at the first entry with
`rain_prob > 0.7 and hours_ahead <= 6`, emitting the umbrella suggestion
only when no tracked keyword matches the rain lexicon. -/
def auto_rain_loop (uid : ℤ) (tracked : List String) (city : String) :
    List HourForecast → List WCand
  | [] => []
  | f :: fs =>
    if 7 / 10 < f.rain_probability ∧ f.hours_ahead ≤ 6 then
      if has_rain_keyword tracked then []
      else
        [{ user_id := uid, alert_type := "weather_opportunity", priority := "high",
           keyword := none,
           context_data := { weather_type := "rain", hours_ahead := some f.hours_ahead,
                             temperature := none,
                             rain_probability := some f.rain_probability,
                             city := city, suggestion := some "Add 'umbrella' keyword" },
           predicted_impact := f.rain_probability * 50,
           confidence_score := f.rain_probability }]
    else auto_rain_loop uid tracked city fs

/-- The hot half of `_check_automatic_weather_alerts`: loop over the first
12 entries, `break` at the first with `temp > 35 and hours_ahead <= 12`. -/
def auto_hot_loop (uid : ℤ) (tracked : List String) (city : String) :
    List HourForecast → List WCand
  | [] => []
  | f :: fs =>
    if 35 < f.temperature ∧ f.hours_ahead ≤ 12 then
      if has_hot_keyword tracked then []
      else
        [{ user_id := uid, alert_type := "weather_opportunity", priority := "medium",
           keyword := none,
           context_data := { weather_type := "hot", hours_ahead := some f.hours_ahead,
                             temperature := some f.temperature,
                             rain_probability := none,
                             city := city, suggestion := some "Add 'cold drink' keyword" },
           predicted_impact := 30,
           confidence_score := 7 / 10 }]
    else auto_hot_loop uid tracked city fs

/-- `DemandDetector._check_automatic_weather_alerts`: rain scan over the
first 6 forecast hours, then hot scan over the first 12; `tracked` is the
user's lowered active keywords, `weather_data` the forecast fetch result. -/
def check_automatic_weather_alerts (uid : ℤ) (tracked : List String) (city : String)
    (weather_data : Option WeatherData) : List WCand :=
  match weather_data with
  | none => []
  | some wd =>
      auto_rain_loop uid tracked city (wd.forecast.take 6) ++
        auto_hot_loop uid tracked city (wd.forecast.take 12)

/-- `DemandDetector._check_weather_demand` for one tracked keyword: one
loop over the first 6 forecast entries, appending (without `break`) a rain
candidate and/or a hot candidate per entry when the thresholds fire and
the keyword matches the corresponding lexicon. -/
def check_weather_demand (uid : ℤ) (keyword : String) (city : String)
    (weather_data : Option WeatherData) : List WCand :=
  match weather_data with
  | none => []
  | some wd =>
    (wd.forecast.take 6).flatMap fun f =>
      (if 7 / 10 < f.rain_probability ∧ f.hours_ahead ≤ 6 ∧
          rain_keywords.any (fun rk => subOf rk.data (lowerData keyword)) then
        [{ user_id := uid, alert_type := "weather_opportunity", priority := "high",
           keyword := some keyword,
           context_data := { weather_type := "rain", hours_ahead := some f.hours_ahead,
                             temperature := none,
                             rain_probability := some f.rain_probability,
                             city := city, suggestion := none },
           predicted_impact := f.rain_probability * 50,
           confidence_score := f.rain_probability }]
      else []) ++
      (if 35 < f.temperature ∧ f.hours_ahead ≤ 12 ∧
          hot_keywords.any (fun hk => subOf hk.data (lowerData keyword)) then
        [{ user_id := uid, alert_type := "weather_opportunity", priority := "medium",
           keyword := some keyword,
           context_data := { weather_type := "hot", hours_ahead := some f.hours_ahead,
                             temperature := some f.temperature,
                             rain_probability := none,
                             city := city, suggestion := none },
           predicted_impact := 30,
           confidence_score := 7 / 10 }]
      else [])

/-! ## `app/jobs/alert_generator.py` — deduplication gate and batch run -/

/-- The fields of an alert-candidate dictionary that the deduplication
query reads (`alert_data["user_id"]`, `alert_data["alert_type"]`,
`alert_data.get("keyword")`). -/
structure CandRow where
  user_id : ℤ
  alert_type : String
  keyword : Option String
deriving DecidableEq

/-- A persisted `Alert` row as the gate sees it; `keyword = none` is SQL
`NULL` (SQLAlchemy turns `== None` into `IS NULL`). -/
structure AlertRow where
  user_id : ℤ
  alert_type : String
  keyword : Option String
  status : String
deriving DecidableEq

/-- The dedup query's filter: same user, type and keyword, status `"new"`. -/
def alert_matches (a : AlertRow) (c : CandRow) : Bool :=
  decide (a.user_id = c.user_id ∧ a.alert_type = c.alert_type ∧
    a.keyword = c.keyword ∧ a.status = "new")

/-- The row `Alert(**alert_data)` inserts (column default gives status
`"new"`). -/
def new_alert_row (c : CandRow) : AlertRow :=
  { user_id := c.user_id, alert_type := c.alert_type, keyword := c.keyword,
    status := "new" }

/-- The per-user staging loop of `generate_alerts_for_all_users`: for each
candidate, query for an open duplicate, and `db.add` plus count when none
exists.  Session auto-flush makes rows added earlier in the same loop
visible to later duplicate queries, hence the append before recursing. -/
def stage_alerts : List AlertRow → List CandRow → List AlertRow × ℕ
  | db, [] => (db, 0)
  | db, c :: cs =>
    if db.any fun a => alert_matches a c then stage_alerts db cs
    else
      let rest := stage_alerts (db ++ [new_alert_row c]) cs
      (rest.1, rest.2 + 1)

/-- What processing one user inside the batch loop can do: the rule
evaluators raise before anything is staged (`evalError`); evaluation
succeeds but the session raises during/after staging, e.g. at
`db.commit()`, and the `except` branch rolls the staged rows back
(`commitError`); or the whole body succeeds (`ok`).  In each error case
the `except` handler logs and continues with the next user. -/
inductive UserRun where
  | evalError
  | commitError (cands : List CandRow)
  | ok (cands : List CandRow)
deriving DecidableEq

/-- `generate_alerts_for_all_users` over the committed alert table: per
user, stage the candidate batch against the table and commit it, rolling
back (but keeping the already-incremented `total_alerts` counter) when the
user's processing raises after staging. -/
def generate_alerts_for_all_users : List AlertRow → List UserRun → List AlertRow × ℕ
  | db, [] => (db, 0)
  | db, .evalError :: users => generate_alerts_for_all_users db users
  | db, .commitError cands :: users =>
    let staged := stage_alerts db cands
    let rest := generate_alerts_for_all_users db users
    (rest.1, staged.2 + rest.2)
  | db, .ok cands :: users =>
    let staged := stage_alerts db cands
    let rest := generate_alerts_for_all_users staged.1 users
    (rest.1, staged.2 + rest.2)

/-! ## Helper lemmas -/

theorem clamp100_bounds (z : ℤ) : 0 ≤ clamp100 z ∧ clamp100 z ≤ 100 := by
  unfold clamp100; omega

theorem pytrunc_clamp (q : ℚ) : clamp100 (pytrunc q) = pytrunc (max 0 (min 100 q)) := by
  unfold pytrunc clamp100
  rcases le_or_lt 0 q with h | h
  · rw [if_pos h, if_pos (le_max_of_le_right (le_min (by norm_num) h))]
    rcases le_or_lt q 100 with h2 | h2
    · rw [min_eq_right h2, max_eq_right h]
      have hf0 : (0 : ℤ) ≤ ⌊q⌋ := Int.le_floor.mpr (by exact_mod_cast h)
      have hf100 : ⌊q⌋ ≤ 100 := by
        have := Int.floor_le_floor h2
        simpa using this
      omega
    · rw [min_eq_left h2.le, max_eq_right (by norm_num : (0:ℚ) ≤ 100)]
      have hf100 : (100 : ℤ) ≤ ⌊q⌋ := Int.le_floor.mpr (by exact_mod_cast h2.le)
      have : ⌊(100 : ℚ)⌋ = 100 := by norm_num
      omega
  · rw [if_neg (not_le.mpr h)]
    have hmin : min 100 q = q := min_eq_right (by linarith)
    rw [hmin, max_eq_left h.le, if_pos le_rfl]
    have hc : ⌈q⌉ ≤ 0 := Int.ceil_le.mpr (by exact_mod_cast h.le)
    have : ⌊(0 : ℚ)⌋ = 0 := by norm_num
    omega

set_option maxHeartbeats 1000000 in
theorem fallback_score_eq_spec (f : Features) :
    fallback_score f = pytrunc (spec_fallback_formula f) := by
  obtain ⟨st, t, r, hol⟩ := f
  cases st <;> cases t <;> cases r <;> cases hol <;>
    · simp only [fallback_score, spec_fallback_formula, PyNum.getD, pytrunc_clamp]
      congr 1
      congr 1
      congr 1
      split_ifs <;> first | tauto | ring

theorem score_from_values_bounds (v : List ℚ) (s : ℤ)
    (h : score_from_values v = some s) : 10 ≤ s ∧ s ≤ 100 := by
  unfold score_from_values at h
  split at h
  · simp at h
  · dsimp only at h
    split at h
    · have hs := Option.some.inj h
      subst hs
      split_ifs <;> omega
    · simp at h

theorem extract_score_bounds (items : List GItem) (s : ℤ)
    (h : extract_score items = some s) : 10 ≤ s ∧ s ≤ 100 := by
  induction items with
  | nil => simp [extract_score] at h
  | cons item rest ih =>
    cases item with
    | none => exact ih h
    | some dl =>
      simp only [extract_score] at h
      split at h
      · cases hv : score_from_values (gPositives dl) with
        | none => simp only [hv] at h; exact ih h
        | some s' =>
          simp only [hv, Option.some.injEq] at h
          subst h
          exact score_from_values_bounds _ _ hv
      · exact ih h

theorem get_trend_score_from_bounds (data : Option GdeltData) :
    get_trend_score_from data = none ∨
      ∃ s, get_trend_score_from data = some s ∧ 10 ≤ s ∧ s ≤ 100 := by
  cases data with
  | none => exact Or.inl rfl
  | some d =>
    simp only [get_trend_score_from]
    by_cases hv : validate_trend_data d = true
    · rw [if_pos hv]
      cases htl : d.timeline with
      | none => exact Or.inl rfl
      | some items =>
        cases he : extract_score items with
        | none => left; simp [he]
        | some s =>
          by_cases hs : 10 ≤ s
          · refine Or.inr ⟨s, ?_, hs, (extract_score_bounds items s he).2⟩
            simp [he, hs]
          · left; simp [he, hs]
    · rw [if_neg hv]
      exact Or.inl rfl

/-! ## Claim theorems -/

/-- Claim C2: with no trained model loaded, `predict_opportunity` computes
exactly the spec's deterministic fallback formula (the score being the
Python-`int` truncation of the clamped formula value), and on the features
`{trend_score: 80, temperature: 25, rain_probability: 0.1, is_holiday:
true}` the score is 91. -/
theorem fallback_formula_and_91 :
    (∀ f : Features, predict_opportunity none f = pytrunc (spec_fallback_formula f)) ∧
      predict_opportunity none
        { search_trend_score := .num 80, temperature := .num 25,
          rain_probability := .num (1 / 10), is_holiday := true } = 91 := by
  constructor
  · intro f
    exact fallback_score_eq_spec f
  · have h2 : spec_fallback_formula
        { search_trend_score := .num 80, temperature := .num 25,
          rain_probability := .num (1 / 10), is_holiday := true } = 91 := by
      unfold spec_fallback_formula
      simp only [PyNum.getD]
      norm_num
    simp only [predict_opportunity]
    rw [fallback_score_eq_spec, h2]
    unfold pytrunc
    rw [if_pos (by norm_num)]
    norm_num

/-- Claim C3: every opportunity-score prediction (trained-model path,
failed-inference path and fallback path alike) lies in `[0, 100]`, and the
trend-score extractor returns `none` or a score in `[10, 100]` for every
fetched response. -/
theorem score_bounds :
    (∀ (model : Option ModelOutcome) (f : Features),
        0 ≤ predict_opportunity model f ∧ predict_opportunity model f ≤ 100) ∧
      ∀ data : Option GdeltData,
        get_trend_score_from data = none ∨
          ∃ s, get_trend_score_from data = some s ∧ 10 ≤ s ∧ s ≤ 100 := by
  constructor
  · intro model f
    match model with
    | some (.ok raw) => exact clamp100_bounds _
    | some .err => exact clamp100_bounds _
    | none => exact clamp100_bounds _
  · exact get_trend_score_from_bounds

theorem alert_matches_new (c : CandRow) : alert_matches (new_alert_row c) c = true := by
  simp [alert_matches, new_alert_row]

theorem stage_alerts_mono (cs : List CandRow) (db : List AlertRow) (a : AlertRow)
    (ha : a ∈ db) : a ∈ (stage_alerts db cs).1 := by
  induction cs generalizing db with
  | nil => simpa [stage_alerts] using ha
  | cons c cs ih =>
    simp only [stage_alerts]
    by_cases hm : db.any (fun a => alert_matches a c) = true
    · rw [if_pos hm]
      exact ih db ha
    · rw [if_neg hm]
      exact ih (db ++ [new_alert_row c]) (List.mem_append_left _ ha)

theorem stage_alerts_covers (cs : List CandRow) (db : List AlertRow) :
    ∀ c ∈ cs, ∃ a ∈ (stage_alerts db cs).1, alert_matches a c = true := by
  induction cs generalizing db with
  | nil => simp
  | cons c cs ih =>
    intro c' hc'
    simp only [stage_alerts]
    by_cases hm : db.any (fun a => alert_matches a c) = true
    · rw [if_pos hm]
      rcases List.mem_cons.mp hc' with rfl | hc'
      · obtain ⟨a, ha, hma⟩ := List.any_eq_true.mp hm
        exact ⟨a, stage_alerts_mono cs db a ha, hma⟩
      · exact ih db c' hc'
    · rw [if_neg hm]
      rcases List.mem_cons.mp hc' with rfl | hc'
      · refine ⟨new_alert_row c', ?_, alert_matches_new c'⟩
        exact stage_alerts_mono cs _ _ (List.mem_append_right _ (List.mem_singleton_self _))
      · exact ih (db ++ [new_alert_row c]) c' hc'

theorem stage_alerts_stale (cs : List CandRow) (db : List AlertRow)
    (h : ∀ c ∈ cs, ∃ a ∈ db, alert_matches a c = true) : stage_alerts db cs = (db, 0) := by
  induction cs with
  | nil => rfl
  | cons c cs ih =>
    have hm : db.any (fun a => alert_matches a c) = true :=
      List.any_eq_true.mpr (h c (List.mem_cons_self c cs))
    simp only [stage_alerts]
    rw [if_pos hm]
    exact ih fun c' h' => h c' (List.mem_cons_of_mem c h')

/-- Claim C1: the deduplication gate makes per-user runs idempotent: a
candidate matching an existing open alert of the same `(user_id,
alert_type, keyword)` triple (keyword compared including `none`) is
suppressed, and a second staging run with the identical candidate batch
leaves the committed table unchanged and creates zero alerts. -/
theorem dedup_idempotent :
    (∀ (db : List AlertRow) (c : CandRow) (cs : List CandRow),
        (∃ a ∈ db, alert_matches a c = true) →
          stage_alerts db (c :: cs) = stage_alerts db cs) ∧
      ∀ (db : List AlertRow) (cands : List CandRow),
        stage_alerts (stage_alerts db cands).1 cands = ((stage_alerts db cands).1, 0) := by
  constructor
  · intro db c cs h
    simp only [stage_alerts]
    rw [if_pos (List.any_eq_true.mpr h)]
  · intro db cands
    exact stage_alerts_stale cands _ (stage_alerts_covers cands db)

/-- Claim C7 (failing input): a batch over two users in which user 7's
commit raises after one fresh candidate was staged, and user 8 commits one
fresh candidate.  The staged alert of user 7 is rolled back (the committed
table holds only user 8's alert) and user 8 is still processed — but the
returned `total_alerts` counter is 2, not the 1 alert actually created for
the unaffected users, because the source increments the counter during
staging and never resets it on rollback. -/
theorem batch_count_includes_rolled_back :
    generate_alerts_for_all_users []
        [UserRun.commitError [{ user_id := 7, alert_type := "social_trend",
                                keyword := some "laptop" }],
         UserRun.ok [{ user_id := 8, alert_type := "social_trend",
                       keyword := some "phone" }]] =
      ([{ user_id := 8, alert_type := "social_trend", keyword := some "phone",
          status := "new" }], 2) := by
  decide

/-- Claim C8: a keyword shorter than 3 characters makes the GDELT adapter
return no data, and the network call flag stays `false`. -/
theorem short_keyword_rejected (keyword : String) (net : GdeltNet)
    (h : keyword.length < 3) : fetch_gdelt_trends keyword net = (none, false) := by
  unfold fetch_gdelt_trends
  rw [if_pos h]

theorem short_keyword_rejected_witness :
    "ab".length < 3 ∧ fetch_gdelt_trends "ab" GdeltNet.timeout = (none, false) :=
  ⟨by decide, short_keyword_rejected "ab" GdeltNet.timeout (by decide)⟩

/-- Claim C5: the validity gate rejects to `None`: whenever the series (the
positive values of the first timeline item) has fewer than 7 observations,
or its last-7 trailing average is below 90% of its overall average, the
trend-score extraction returns `none`. -/
theorem validity_gate_rejects (d : GdeltData) (dl : List GPoint) (rest : List GItem)
    (htl : d.timeline = some (some dl :: rest))
    (h : (gPositives dl).length < 7 ∨
      sumQ (lastN 7 (gPositives dl)) / ((lastN 7 (gPositives dl)).length : ℚ) <
        sumQ (gPositives dl) / ((gPositives dl).length : ℚ) * (9 / 10)) :
    get_trend_score_from (some d) = none := by
  have hval : validate_trend_data d = false := by
    unfold validate_trend_data
    rw [htl]
    dsimp only
    by_cases h7 : dl.length < 7
    · rw [if_pos h7]
    · rw [if_neg h7]
      by_cases hp7 : (gPositives dl).length < 7
      · rw [if_pos hp7]
      · rw [if_neg hp7]
        rcases h with h | h
        · exact absurd h hp7
        · have hc : decide (sumQ (gPositives dl) / ((gPositives dl).length : ℚ) * (9 / 10) ≤
              sumQ (lastN 7 (gPositives dl)) / ((lastN 7 (gPositives dl)).length : ℚ)) = false :=
            decide_eq_false (not_le.mpr h)
          simp [hc]
  simp only [get_trend_score_from]
  rw [if_neg (by simp [hval])]

/-- A response whose only timeline item has just three positive values. -/
def gdeltTiny : GdeltData :=
  { timeline := some [some [some 1, some 1, some 1]] }

theorem validity_gate_rejects_witness :
    (gPositives [some 1, some 1, some 1]).length < 7 ∧
      get_trend_score_from (some gdeltTiny) = none :=
  ⟨by decide, validity_gate_rejects gdeltTiny [some 1, some 1, some 1] [] rfl
    (Or.inl (by decide))⟩

/-- Claim C4 (counterexample): with missing credentials the news adapter
does not return an Unavailable result: it fabricates an estimated signal
(for "laptop", a trending score of 60 from its static keyword table). -/
theorem news_fallback_not_unavailable :
    search_trend none "laptop" 7 NewsNet.timeout =
      some { keyword := "laptop", score := 60, articles := 0,
             status := "trending", source := "estimated" } := by
  decide

/-- Claim C4 (amended): no adapter raises to its caller (each embedded
fetch is a total function whose exception paths are explicit outcomes);
on timeout, on a raising non-2xx status, on an unparseable body, and on
missing credentials, the GDELT and weather adapters return Unavailable
(`none`), while the news adapter instead returns the estimated fallback
signal in all those cases. -/
theorem adapters_fail_closed :
    ∀ (keyword city key : String) (now hours_ahead : ℤ) (days : ℕ),
      (fetch_gdelt_trends keyword GdeltNet.timeout).1 = none ∧
      (fetch_gdelt_trends keyword GdeltNet.requestError).1 = none ∧
      (fetch_gdelt_trends keyword GdeltNet.badJson).1 = none ∧
      get_forecast none city now hours_ahead WeatherNet.timeout = none ∧
      get_forecast (some key) city now hours_ahead WeatherNet.timeout = none ∧
      get_forecast (some key) city now hours_ahead WeatherNet.requestError = none ∧
      get_forecast (some key) city now hours_ahead WeatherNet.badJson = none ∧
      search_trend none keyword days NewsNet.timeout =
        some (get_fallback_score keyword) ∧
      search_trend (some key) keyword days NewsNet.timeout =
        some (get_fallback_score keyword) ∧
      (∀ (code : ℕ) (body : Option ℕ), 400 ≤ code → code < 600 →
        search_trend (some key) keyword days (NewsNet.status code body) =
          some (get_fallback_score keyword)) ∧
      search_trend (some key) keyword days (NewsNet.status 200 none) =
        some (get_fallback_score keyword) := by
  intro keyword city key now hours_ahead days
  refine ⟨?_, ?_, ?_, ?_, ?_, ?_, ?_, ?_, ?_, ?_, ?_⟩
  · unfold fetch_gdelt_trends; split_ifs <;> rfl
  · unfold fetch_gdelt_trends; split_ifs <;> rfl
  · unfold fetch_gdelt_trends; split_ifs <;> rfl
  · rfl
  · rfl
  · rfl
  · rfl
  · rfl
  · rfl
  · intro code body h4 h6
    unfold search_trend
    dsimp only
    by_cases h401 : code = 401
    · rw [if_pos h401]
    · rw [if_neg h401]
      by_cases h429 : code = 429
      · rw [if_pos h429]
      · rw [if_neg h429, if_pos ⟨h4, h6⟩]
  · rfl

/-- The forecast of claim C6's first scenario: rain probability 0.75 at 3
hours ahead (moderate temperature). -/
def forecastA : WeatherData :=
  { city := "Mumbai",
    forecast := [{ hours_ahead := 3, temperature := 28, rain_probability := 3 / 4 }] }

/-- The forecast of claim C6's second scenario: rain probability 0.8 at 2
hours ahead (moderate temperature). -/
def forecastB : WeatherData :=
  { city := "Mumbai",
    forecast := [{ hours_ahead := 2, temperature := 28, rain_probability := 4 / 5 }] }

/-- Claim C6: with rain probability 0.75 at 3 hours ahead and "umbrella"
tracked, the run yields exactly one `weather_opportunity` candidate — the
keyword-specific one, priority high, predicted impact 0.75×50 = 37.5,
confidence 0.75 (and no automatic suggestion); with rain probability 0.8
at 2 hours ahead and no tracked keyword matching the rain lexicon, exactly
one `weather_opportunity` candidate — keyword `none` with a suggestion
payload (and no keyword-specific candidate). -/
theorem weather_rain_scenarios :
    (check_weather_demand 1 "umbrella" "Mumbai" (some forecastA) =
      [{ user_id := 1, alert_type := "weather_opportunity", priority := "high",
         keyword := some "umbrella",
         context_data := { weather_type := "rain", hours_ahead := some 3,
                           temperature := none, rain_probability := some (3 / 4),
                           city := "Mumbai", suggestion := none },
         predicted_impact := 75 / 2, confidence_score := 3 / 4 }] ∧
      check_automatic_weather_alerts 1 ["umbrella"] "Mumbai" (some forecastA) = []) ∧
    check_automatic_weather_alerts 2 ["laptop"] "Mumbai" (some forecastB) =
      [{ user_id := 2, alert_type := "weather_opportunity", priority := "high",
         keyword := none,
         context_data := { weather_type := "rain", hours_ahead := some 2,
                           temperature := none, rain_probability := some (4 / 5),
                           city := "Mumbai", suggestion := some "Add 'umbrella' keyword" },
         predicted_impact := 40, confidence_score := 4 / 5 }] ∧
      check_weather_demand 2 "laptop" "Mumbai" (some forecastB) = [] := by
  have hrk : (rain_keywords.any fun rk => subOf rk.data (lowerData "umbrella")) = true := by
    decide
  have hhk : (hot_keywords.any fun hk => subOf hk.data (lowerData "umbrella")) = false := by
    decide
  have hrk2 : (rain_keywords.any fun rk => subOf rk.data (lowerData "laptop")) = false := by
    decide
  have hhk2 : (hot_keywords.any fun hk => subOf hk.data (lowerData "laptop")) = false := by
    decide
  have htr : has_rain_keyword ["umbrella"] = true := by decide
  have htr2 : has_rain_keyword ["laptop"] = false := by decide
  have hth2 : has_hot_keyword ["laptop"] = false := by decide
  refine ⟨⟨?_, ?_⟩, ?_, ?_⟩
  · simp only [check_weather_demand, forecastA, List.take, List.flatMap_cons,
      List.flatMap_nil, hrk, hhk]
    norm_num
  · simp only [check_automatic_weather_alerts, forecastA, List.take, auto_rain_loop,
      auto_hot_loop, htr]
    norm_num [auto_hot_loop]
  · simp only [check_automatic_weather_alerts, forecastB, List.take, auto_rain_loop,
      auto_hot_loop, htr2, hth2]
    norm_num
  · simp only [check_weather_demand, forecastB, List.take, List.flatMap_cons,
      List.flatMap_nil, hrk2, hhk2]
    norm_num

theorem auto_rain_loop_le_one (uid : ℤ) (tracked : List String) (city : String)
    (l : List HourForecast) : (auto_rain_loop uid tracked city l).length ≤ 1 := by
  induction l with
  | nil => simp [auto_rain_loop]
  | cons f fs ih =>
    simp only [auto_rain_loop]
    split_ifs
    · simp
    · simp
    · exact ih

theorem auto_hot_loop_le_one (uid : ℤ) (tracked : List String) (city : String)
    (l : List HourForecast) : (auto_hot_loop uid tracked city l).length ≤ 1 := by
  induction l with
  | nil => simp [auto_hot_loop]
  | cons f fs ih =>
    simp only [auto_hot_loop]
    split_ifs
    · simp
    · simp
    · exact ih

theorem auto_rain_loop_is_rain (uid : ℤ) (tracked : List String) (city : String)
    (l : List HourForecast) :
    ∀ c ∈ auto_rain_loop uid tracked city l, c.context_data.weather_type = "rain" := by
  induction l with
  | nil => simp [auto_rain_loop]
  | cons f fs ih =>
    intro c hc
    simp only [auto_rain_loop] at hc
    split_ifs at hc
    · simp at hc
    · simp only [List.mem_singleton] at hc
      simp [hc]
    · exact ih c hc

theorem auto_hot_loop_is_hot (uid : ℤ) (tracked : List String) (city : String)
    (l : List HourForecast) :
    ∀ c ∈ auto_hot_loop uid tracked city l, c.context_data.weather_type = "hot" := by
  induction l with
  | nil => simp [auto_hot_loop]
  | cons f fs ih =>
    intro c hc
    simp only [auto_hot_loop] at hc
    split_ifs at hc
    · simp at hc
    · simp only [List.mem_singleton] at hc
      simp [hc]
    · exact ih c hc

/-- Claim C9: one automatic weather check emits at most one rain suggestion
and at most one hot-weather suggestion, whatever the forecast and tracked
keywords are: each scan breaks at its first triggering hour. -/
theorem at_most_one_suggestion_each (uid : ℤ) (tracked : List String) (city : String)
    (wd : Option WeatherData) :
    ((check_automatic_weather_alerts uid tracked city wd).filter
        (fun c => c.context_data.weather_type == "rain")).length ≤ 1 ∧
      ((check_automatic_weather_alerts uid tracked city wd).filter
        (fun c => c.context_data.weather_type == "hot")).length ≤ 1 := by
  cases wd with
  | none => simp [check_automatic_weather_alerts]
  | some w =>
    simp only [check_automatic_weather_alerts, List.filter_append, List.length_append]
    have hrainhot :
        (List.filter (fun c => c.context_data.weather_type == "hot")
          (auto_rain_loop uid tracked city (w.forecast.take 6))) = [] := by
      rw [List.filter_eq_nil_iff]
      intro c hc
      rw [auto_rain_loop_is_rain uid tracked city _ c hc]
      decide
    have hhotrain :
        (List.filter (fun c => c.context_data.weather_type == "rain")
          (auto_hot_loop uid tracked city (w.forecast.take 12))) = [] := by
      rw [List.filter_eq_nil_iff]
      intro c hc
      rw [auto_hot_loop_is_hot uid tracked city _ c hc]
      decide
    constructor
    · rw [hhotrain]
      have := le_trans (List.length_filter_le (fun c => c.context_data.weather_type == "rain")
        (auto_rain_loop uid tracked city (w.forecast.take 6)))
        (auto_rain_loop_le_one uid tracked city (w.forecast.take 6))
      simpa using this
    · rw [hrainhot]
      have := le_trans (List.length_filter_le (fun c => c.context_data.weather_type == "hot")
        (auto_hot_loop uid tracked city (w.forecast.take 12)))
        (auto_hot_loop_le_one uid tracked city (w.forecast.take 12))
      simpa using this

theorem get_trend_score_some_bounds (keyword : String) (net : GdeltNet) (s : ℤ)
    (h : get_trend_score keyword net = some s) : 10 ≤ s ∧ s ≤ 100 := by
  unfold get_trend_score at h
  rcases get_trend_score_from_bounds (fetch_gdelt_trends keyword net).1 with h0 | ⟨s', hs', hb⟩
  · rw [h0] at h
    exact absurd h (by simp)
  · rw [hs'] at h
    obtain rfl := Option.some.inj h
    exact hb

theorem trend_entry_isSome (net : String → GdeltNet) (keyword : String) :
    (trend_entry_for net keyword).isSome = (get_trend_score keyword (net keyword)).isSome := by
  unfold trend_entry_for
  cases hs : get_trend_score keyword (net keyword) with
  | none => rfl
  | some s =>
    dsimp only
    rw [if_pos (get_trend_score_some_bounds keyword (net keyword) s hs).1]
    rfl

theorem trends_filterMap_length (net : String → GdeltNet) (keywords : List String) :
    (keywords.filterMap (trend_entry_for net)).length =
      (keywords.filter fun k => (get_trend_score k (net k)).isSome).length := by
  induction keywords with
  | nil => rfl
  | cons k ks ih =>
    rw [List.filterMap_cons, List.filter_cons]
    cases hk : trend_entry_for net k with
    | none =>
      have : (get_trend_score k (net k)).isSome = false := by
        rw [← trend_entry_isSome net k, hk]
        rfl
      rw [this]
      simpa using ih
    | some e =>
      have : (get_trend_score k (net k)).isSome = true := by
        rw [← trend_entry_isSome net k, hk]
        rfl
      rw [this]
      simpa using ih

/-- Claim C10: every entry of the batch trend lookup has score at least 10,
carries status `"trending"` exactly when the score exceeds 50 and
`"rising"` otherwise, keywords whose extraction returned `None` contribute
no entry (the output length is the count of keywords with a score), and
the output is sorted by non-increasing trend score. -/
theorem trends_list_properties (keywords : List String) (net : String → GdeltNet) :
    (∀ e ∈ get_trends_for_keywords keywords net,
        10 ≤ e.trend_score ∧
          (e.status = "trending" ↔ 50 < e.trend_score) ∧
          (e.status = "rising" ↔ ¬50 < e.trend_score)) ∧
      List.Pairwise (fun a b => b.trend_score ≤ a.trend_score)
        (get_trends_for_keywords keywords net) ∧
      (get_trends_for_keywords keywords net).length =
        (keywords.filter fun k => (get_trend_score k (net k)).isSome).length := by
  refine ⟨?_, ?_, ?_⟩
  · intro e he
    rw [get_trends_for_keywords, List.mem_mergeSort] at he
    obtain ⟨k, hk, hfk⟩ := List.mem_filterMap.mp he
    unfold trend_entry_for at hfk
    cases hs : get_trend_score k (net k) with
    | none => rw [hs] at hfk; exact absurd hfk (by simp)
    | some s =>
      rw [hs] at hfk
      dsimp only at hfk
      split at hfk
      · obtain rfl := Option.some.inj hfk
        dsimp only
        by_cases h50 : 50 < s
        · rw [if_pos h50]
          exact ⟨by assumption, ⟨fun _ => h50, fun _ => rfl⟩,
            ⟨fun h => absurd h (by decide), fun h => absurd h50 h⟩⟩
        · rw [if_neg h50]
          exact ⟨by assumption, ⟨fun h => absurd h (by decide), fun h => absurd h h50⟩,
            ⟨fun _ => h50, fun _ => rfl⟩⟩
      · exact absurd hfk (by simp)
  · have hp := @List.sorted_mergeSort TrendEntry
      (fun a b => decide (b.trend_score ≤ a.trend_score))
      (fun a b c hab hbc =>
        decide_eq_true (le_trans (of_decide_eq_true hbc) (of_decide_eq_true hab)))
      (fun a b => by
        rcases le_total a.trend_score b.trend_score with h | h <;> simp [h])
      (keywords.filterMap (trend_entry_for net))
    exact hp.imp fun h => of_decide_eq_true h
  · rw [show (get_trends_for_keywords keywords net).length =
        (keywords.filterMap (trend_entry_for net)).length from
        (List.mergeSort_perm _ _).length_eq]
    exact trends_filterMap_length net keywords
